import Mathlib

/-!
Verification of the face-enrollment-and-matching subsystem of the
rural-reach-attendance repository.

The embedding follows `src/lib/face/engine.ts` (model loading, descriptor
extraction, Euclidean distance, nearest-neighbor matching),
`src/components/face/FaceScanDialog.tsx` (the scan-loop state machine with
configurable thresholds and the post-auto-mark cooldown) and
`src/components/face/BatchEnrollDialog.tsx` (the batch enrollment index
machine).  JavaScript numbers are modelled as real numbers; `Math.sqrt` is
`Real.sqrt`; the JavaScript `Infinity` used as the initial running minimum
of `findBestMatch` is the top element of `EReal`.  Thrown exceptions are
modelled with `Except`; a `try`/`catch` block becomes a `match` on the
`Except` value of its body.  Externally supplied capabilities (the neural
detector, network fetches of model files, the database write of an
enrollment) are oracles passed in as explicit parameters.
-/

namespace Engine

/-- Error taxonomy of the engine: `descriptorLengthMismatch` models the
`'Descriptors must have the same length'` exception of `euclideanDistance`,
`modelUnavailable` the `'Unable to load face detection models'` exception of
`loadModels`, and `detectorFailure` an internal runtime failure of the
face-api detector. -/
inductive EngineError where
  | descriptorLengthMismatch : EngineError
  | modelUnavailable : EngineError
  | detectorFailure : EngineError
deriving DecidableEq, Repr

/-- Result record of `findBestMatch`, mirroring `interface FaceMatch`. -/
structure FaceMatch where
  studentId : String
  distance : ℝ
  confidence : ℝ

/-- One enrolled roster entry as consumed by `findBestMatch`. -/
structure EnrolledFace where
  studentId : String
  descriptor : List ℝ

/-- `const MATCH_THRESHOLD = 0.6`. -/
def MATCH_THRESHOLD : ℝ := 0.6

/-- The running sum of the loop of `euclideanDistance`:
`for i: diff = a[i] - b[i]; sum += diff * diff`. -/
def sumSqDiff (a b : List ℝ) : ℝ :=
  (a.zip b).foldl (fun sum p => sum + (p.1 - p.2) * (p.1 - p.2)) 0

/-- `euclideanDistance(a, b)`: throws when the lengths differ, otherwise
returns `Math.sqrt` of the sum of squared coordinate differences. -/
noncomputable def euclideanDistance (a b : List ℝ) : Except EngineError ℝ :=
  if a.length ≠ b.length then Except.error EngineError.descriptorLengthMismatch
  else Except.ok (Real.sqrt (sumSqDiff a b))

/-- The `for (const enrolled of enrolledFaces)` loop of `findBestMatch`,
carrying the accumulators `bestMatch` and `minDistance` (initially
`null` and `Infinity`).  The `try`/`catch` around the per-entry comparison
becomes the `Except.error` branch, which skips the entry. -/
noncomputable def findBestMatchGo (inputDescriptor : List ℝ) (threshold : ℝ) :
    List EnrolledFace → Option FaceMatch → EReal → Option FaceMatch
  | [], bestMatch, _ => bestMatch
  | enrolled :: rest, bestMatch, minDistance =>
    match euclideanDistance inputDescriptor enrolled.descriptor with
    | Except.error _ => findBestMatchGo inputDescriptor threshold rest bestMatch minDistance
    | Except.ok distance =>
      if (distance : EReal) < minDistance ∧ distance < threshold then
        findBestMatchGo inputDescriptor threshold rest
          (some { studentId := enrolled.studentId
                  distance := distance
                  confidence := max 0 (1 - distance) })
          (distance : EReal)
      else
        findBestMatchGo inputDescriptor threshold rest bestMatch minDistance

/-- `findBestMatch(inputDescriptor, enrolledFaces, threshold = MATCH_THRESHOLD)`. -/
noncomputable def findBestMatch (inputDescriptor : List ℝ)
    (enrolledFaces : List EnrolledFace) (threshold : ℝ := MATCH_THRESHOLD) :
    Option FaceMatch :=
  if enrolledFaces.length = 0 then none
  else findBestMatchGo inputDescriptor threshold enrolledFaces none ⊤

/-- Invariant carried by the accumulators of `findBestMatchGo`: any stored
best match is below the threshold. -/
theorem findBestMatchGo_lt_threshold (input : List ℝ) (t : ℝ)
    (faces : List EnrolledFace) :
    ∀ best minD, (∀ b, best = some b → b.distance < t) →
      ∀ r, findBestMatchGo input t faces best minD = some r → r.distance < t := by
  induction faces with
  | nil =>
    intro best minD hbest r hr
    exact hbest r hr
  | cons e rest ih =>
    intro best minD hbest r hr
    rw [findBestMatchGo] at hr
    split at hr
    · exact ih best minD hbest r hr
    · split at hr
      · rename_i hc
        refine ih _ _ ?_ r hr
        intro b hb
        cases hb
        exact hc.2
      · exact ih best minD hbest r hr

end Engine

namespace Engine

/-- Full characterization of the loop of `findBestMatch`.  Under the
accumulator invariant (either nothing found yet and the running minimum is
`Infinity`, or the stored best match realizes the running minimum and beats
the threshold), a `some` result either is the incoming best match and no
entry of the remaining roster strictly beats it, or it comes from an entry
of the remaining roster that strictly beats every eligible entry before it
(and the incoming minimum) and weakly beats every eligible entry after
it. -/
theorem findBestMatchGo_spec (probe : List ℝ) (t : ℝ) :
    ∀ (faces : List EnrolledFace) (best : Option FaceMatch) (minD : EReal),
      ((best = none ∧ minD = ⊤) ∨
        (∃ b, best = some b ∧ minD = (b.distance : EReal) ∧ b.distance < t)) →
      ∀ r, findBestMatchGo probe t faces best minD = some r →
        (best = some r ∧
          (∀ e ∈ faces, ∀ d, euclideanDistance probe e.descriptor = Except.ok d →
            d < t → r.distance ≤ d)) ∨
        (∃ l₁ e l₂, faces = l₁ ++ e :: l₂ ∧
          e.studentId = r.studentId ∧
          euclideanDistance probe e.descriptor = Except.ok r.distance ∧
          r.distance < t ∧
          r.confidence = max 0 (1 - r.distance) ∧
          (r.distance : EReal) < minD ∧
          (∀ e' ∈ l₁, ∀ d, euclideanDistance probe e'.descriptor = Except.ok d →
            d < t → r.distance < d) ∧
          (∀ e' ∈ l₂, ∀ d, euclideanDistance probe e'.descriptor = Except.ok d →
            d < t → r.distance ≤ d)) := by
  intro faces
  induction faces with
  | nil =>
    intro best minD _ r hr
    exact Or.inl ⟨hr, by simp⟩
  | cons e rest ih =>
    intro best minD hinv r hr
    rw [findBestMatchGo] at hr
    split at hr
    · rename_i a heq
      rcases ih best minD hinv r hr with ⟨hbest, hall⟩ | ⟨l₁, e', l₂, hsplit, hrest⟩
      · refine Or.inl ⟨hbest, ?_⟩
        intro e₀ he₀ d hd
        rcases List.mem_cons.1 he₀ with rfl | hmem
        · rw [heq] at hd
          exact absurd hd (by simp)
        · exact hall e₀ hmem d hd
      · refine Or.inr ⟨e :: l₁, e', l₂, by rw [hsplit]; rfl, hrest.1, hrest.2.1,
          hrest.2.2.1, hrest.2.2.2.1, hrest.2.2.2.2.1, ?_, hrest.2.2.2.2.2.2⟩
        intro e₀ he₀ d hd
        rcases List.mem_cons.1 he₀ with rfl | hmem
        · rw [heq] at hd
          exact absurd hd (by simp)
        · exact hrest.2.2.2.2.2.1 e₀ hmem d hd
    · rename_i d heq
      split at hr
      · rename_i hc
        rcases ih _ _ (Or.inr ⟨_, rfl, rfl, hc.2⟩) r hr with ⟨hbest, hall⟩ |
          ⟨l₁, e', l₂, hsplit, hid, hdist, hlt, hconf, hmin, hall₁, hall₂⟩
        · have hre : r = FaceMatch.mk e.studentId d (max 0 (1 - d)) := by
            cases hbest
            rfl
          refine Or.inr ⟨[], e, rest, rfl, ?_, ?_, ?_, ?_, ?_, by simp, ?_⟩
          · rw [hre]
          · rw [hre, heq]
          · rw [hre]
            exact hc.2
          · rw [hre]
          · rw [hre]
            exact hc.1
          · intro e₀ h₀ d₀ hd₀ hd₀t
            have := hall e₀ h₀ d₀ hd₀ hd₀t
            rwa [hre] at *
        · refine Or.inr ⟨e :: l₁, e', l₂, by rw [hsplit]; rfl, hid, hdist, hlt, hconf,
            lt_trans hmin hc.1, ?_, hall₂⟩
          intro e₀ he₀ d₀ hd₀ hd₀t
          rcases List.mem_cons.1 he₀ with rfl | hmem
          · rw [heq] at hd₀
            have hdd : d = d₀ := by
              injection hd₀
            subst hdd
            exact EReal.coe_lt_coe_iff.1 hmin
          · exact hall₁ e₀ hmem d₀ hd₀ hd₀t
      · rename_i hc
        have hminle : ∀ d₀ : ℝ, euclideanDistance probe e.descriptor = Except.ok d₀ →
            d₀ < t → minD ≤ (d₀ : EReal) := by
          intro d₀ hd₀ hd₀t
          rw [heq] at hd₀
          have hdd : d = d₀ := by
            injection hd₀
          subst hdd
          by_contra hlt'
          exact hc ⟨lt_of_not_le hlt', hd₀t⟩
        rcases ih best minD hinv r hr with ⟨hbest, hall⟩ | ⟨l₁, e', l₂, hsplit, hid,
            hdist, hlt, hconf, hmin, hall₁, hall₂⟩
        · have hminr : minD = (r.distance : EReal) := by
            rcases hinv with ⟨hb, _⟩ | ⟨b, hb, hmd, _⟩
            · rw [hb] at hbest
              exact absurd hbest (by simp)
            · rw [hb] at hbest
              cases hbest
              exact hmd
          refine Or.inl ⟨hbest, ?_⟩
          intro e₀ he₀ d₀ hd₀ hd₀t
          rcases List.mem_cons.1 he₀ with rfl | hmem
          · have := hminle d₀ hd₀ hd₀t
            rw [hminr] at this
            exact_mod_cast this
          · exact hall e₀ hmem d₀ hd₀ hd₀t
        · refine Or.inr ⟨e :: l₁, e', l₂, by rw [hsplit]; rfl, hid, hdist, hlt, hconf,
            hmin, ?_, hall₂⟩
          intro e₀ he₀ d₀ hd₀ hd₀t
          rcases List.mem_cons.1 he₀ with rfl | hmem
          · have hle := hminle d₀ hd₀ hd₀t
            have : (r.distance : EReal) < (d₀ : EReal) := lt_of_lt_of_le hmin hle
            exact_mod_cast this
          · exact hall₁ e₀ hmem d₀ hd₀ hd₀t

/-- The loop sum of `euclideanDistance` is the sum of the squared
coordinate differences expressed with `zipWith`, the way the spec states
the Euclidean distance. -/
theorem sumSqDiff_eq_zipWith_sum (a b : List ℝ) :
    sumSqDiff a b = (List.zipWith (fun x y => (x - y) ^ 2) a b).sum := by
  have hfold : ∀ (l : List (ℝ × ℝ)) (s : ℝ),
      l.foldl (fun sum p => sum + (p.1 - p.2) * (p.1 - p.2)) s =
        s + (l.map (fun p => (p.1 - p.2) * (p.1 - p.2))).sum := by
    intro l
    induction l with
    | nil => simp
    | cons p rest ih =>
      intro s
      simp only [List.foldl_cons, List.map_cons, List.sum_cons, ih]
      ring
  have hzip : ∀ (a b : List ℝ),
      ((a.zip b).map (fun p => (p.1 - p.2) * (p.1 - p.2))).sum =
        (List.zipWith (fun x y => (x - y) ^ 2) a b).sum := by
    intro a
    induction a with
    | nil => intro b; simp
    | cons x xs ih =>
      intro b
      cases b with
      | nil => simp
      | cons y ys =>
        simp only [List.zip_cons_cons, List.map_cons, List.sum_cons,
          List.zipWith_cons_cons, ih ys]
        ring_nf
  rw [sumSqDiff, hfold, hzip]
  simp

/-- The body of the filter of `findBestMatch` skips exactly the roster
entries whose descriptor length disagrees with the probe, because those are
the entries on which `euclideanDistance` throws. -/
theorem findBestMatchGo_filter (probe : List ℝ) (t : ℝ) :
    ∀ (faces : List EnrolledFace) (best : Option FaceMatch) (minD : EReal),
      findBestMatchGo probe t faces best minD =
        findBestMatchGo probe t
          (faces.filter fun e => e.descriptor.length == probe.length) best minD := by
  intro faces
  induction faces with
  | nil =>
    intro best minD
    rfl
  | cons e rest ih =>
    intro best minD
    by_cases hp : e.descriptor.length = probe.length
    · have hfilter : (e :: rest).filter (fun e => e.descriptor.length == probe.length) =
          e :: rest.filter (fun e => e.descriptor.length == probe.length) := by
        simp [List.filter_cons, hp]
      have hok : euclideanDistance probe e.descriptor =
          Except.ok (Real.sqrt (sumSqDiff probe e.descriptor)) := by
        rw [euclideanDistance, if_neg (by rw [hp]; simp)]
      rw [hfilter, findBestMatchGo, findBestMatchGo]
      simp only [hok]
      by_cases hc : ((Real.sqrt (sumSqDiff probe e.descriptor) : ℝ) : EReal) < minD ∧
          Real.sqrt (sumSqDiff probe e.descriptor) < t
      · rw [if_pos hc, if_pos hc]
        exact ih _ _
      · rw [if_neg hc, if_neg hc]
        exact ih _ _
    · have hfilter : (e :: rest).filter (fun e => e.descriptor.length == probe.length) =
          rest.filter (fun e => e.descriptor.length == probe.length) := by
        simp [List.filter_cons, hp]
      have herr : euclideanDistance probe e.descriptor =
          Except.error EngineError.descriptorLengthMismatch := by
        rw [euclideanDistance, if_pos (fun h => hp h.symm)]
      rw [hfilter, findBestMatchGo]
      simp only [herr]
      exact ih best minD

/-- Claim C1: for every probe descriptor, roster, and threshold,
`findBestMatch` never returns a result whose distance is greater than or
equal to the threshold, and with an empty roster it always returns
`null`. -/
theorem C1_findBestMatch_threshold_and_empty (probe : List ℝ) (t : ℝ) :
    (∀ faces r, findBestMatch probe faces t = some r → r.distance < t) ∧
      findBestMatch probe [] t = none := by
  constructor
  · intro faces r hr
    rw [findBestMatch] at hr
    by_cases hlen : faces.length = 0
    · rw [if_pos hlen] at hr
      exact absurd hr (by simp)
    · rw [if_neg hlen] at hr
      exact findBestMatchGo_lt_threshold probe t faces none ⊤ (by simp) r hr
  · rfl

/-- Concrete evaluation shared by witnesses: on probe `[]` against the
single-entry roster `[{A, []}]` with threshold `1`, `findBestMatch` returns
the match `{A, distance 0, confidence 1}`. -/
theorem findBestMatch_demo_eval :
    findBestMatch [] [{ studentId := "A", descriptor := [] }] 1 =
      some { studentId := "A", distance := 0, confidence := 1 } := by
  have hdist : euclideanDistance [] ([] : List ℝ) = Except.ok 0 := by
    rw [euclideanDistance]
    rw [if_neg (by simp)]
    simp [sumSqDiff, Real.sqrt_zero]
  rw [findBestMatch]
  rw [if_neg (by simp)]
  rw [findBestMatchGo]
  simp only [hdist]
  rw [if_pos ⟨by exact_mod_cast EReal.coe_lt_top 0, by norm_num⟩]
  rw [findBestMatchGo]
  norm_num

/-- Witness for C1: on the concrete roster `[{A, []}]` with probe `[]` and
threshold `1`, `findBestMatch` returns a match and the claim instance gives
that its distance is below the threshold. -/
theorem C1_witness :
    (({ studentId := "A", distance := 0, confidence := 1 } : FaceMatch)).distance < 1 :=
  (C1_findBestMatch_threshold_and_empty [] 1).1
    [{ studentId := "A", descriptor := [] }]
    { studentId := "A", distance := 0, confidence := 1 }
    findBestMatch_demo_eval

/-- Claim C4: `findBestMatch` is deterministic (repeated calls on the same
probe, roster and threshold return the identical result, hence the identical
subjectId), and a returned match comes from a roster entry that is strictly
closer than every eligible entry occurring before it (so the
first-encountered candidate wins on exact distance ties) and at least as
close as every eligible entry occurring after it (so among eligible
candidates the strictly smallest distance wins). -/
theorem C4_findBestMatch_deterministic_min (probe : List ℝ)
    (faces : List EnrolledFace) (t : ℝ) :
    findBestMatch probe faces t = findBestMatch probe faces t ∧
    ∀ r, findBestMatch probe faces t = some r →
      ∃ l₁ e l₂, faces = l₁ ++ e :: l₂ ∧
        e.studentId = r.studentId ∧
        euclideanDistance probe e.descriptor = Except.ok r.distance ∧
        r.distance < t ∧
        (∀ e' ∈ l₁, ∀ d, euclideanDistance probe e'.descriptor = Except.ok d →
          d < t → r.distance < d) ∧
        (∀ e' ∈ l₂, ∀ d, euclideanDistance probe e'.descriptor = Except.ok d →
          d < t → r.distance ≤ d) := by
  refine ⟨rfl, ?_⟩
  intro r hr
  rw [findBestMatch] at hr
  by_cases hlen : faces.length = 0
  · rw [if_pos hlen] at hr
    exact absurd hr (by simp)
  · rw [if_neg hlen] at hr
    rcases findBestMatchGo_spec probe t faces none ⊤ (Or.inl ⟨rfl, rfl⟩) r hr with
      ⟨hbest, _⟩ | ⟨l₁, e, l₂, hsplit, hid, hdist, hlt, _, _, hall₁, hall₂⟩
    · exact absurd hbest (by simp)
    · exact ⟨l₁, e, l₂, hsplit, hid, hdist, hlt, hall₁, hall₂⟩

/-- Witness for C4: applying the characterization on the concrete roster
`[{A, []}]`, probe `[]` and threshold `1`, where the returned match is
`{A, 0, 1}`. -/
theorem C4_witness :
    ∃ l₁ e l₂, ([{ studentId := "A", descriptor := [] }] : List EnrolledFace) =
        l₁ ++ e :: l₂ ∧
      e.studentId = "A" ∧
      euclideanDistance [] e.descriptor = Except.ok 0 ∧
      (0 : ℝ) < 1 ∧
      (∀ e' ∈ l₁, ∀ d, euclideanDistance [] e'.descriptor = Except.ok d →
        d < 1 → (0 : ℝ) < d) ∧
      (∀ e' ∈ l₂, ∀ d, euclideanDistance [] e'.descriptor = Except.ok d →
        d < 1 → (0 : ℝ) ≤ d) :=
  (C4_findBestMatch_deterministic_min [] [{ studentId := "A", descriptor := [] }] 1).2
    { studentId := "A", distance := 0, confidence := 1 }
    findBestMatch_demo_eval

/-- Claim C7: for every pair of vectors of differing lengths,
`euclideanDistance` always fails with the length-mismatch error and never
returns a numeric value; for equal-length vectors it returns their Euclidean
distance (the square root of the sum of squared coordinate differences). -/
theorem C7_euclideanDistance_contract (a b : List ℝ) :
    (a.length ≠ b.length →
      euclideanDistance a b = Except.error EngineError.descriptorLengthMismatch) ∧
    (a.length = b.length →
      euclideanDistance a b =
        Except.ok (Real.sqrt ((List.zipWith (fun x y => (x - y) ^ 2) a b).sum))) := by
  constructor
  · intro h
    rw [euclideanDistance, if_pos h]
  · intro h
    rw [euclideanDistance, if_neg (fun hn => hn h), sumSqDiff_eq_zipWith_sum]

/-- Witness for C7: `[0]` against `[]` fails with the length-mismatch error,
and `[]` against `[]` returns the Euclidean distance. -/
theorem C7_witness :
    euclideanDistance [(0 : ℝ)] [] = Except.error EngineError.descriptorLengthMismatch ∧
    euclideanDistance ([] : List ℝ) [] =
      Except.ok (Real.sqrt ((List.zipWith (fun x y => (x - y) ^ 2)
        ([] : List ℝ) ([] : List ℝ)).sum)) :=
  ⟨(C7_euclideanDistance_contract [0] []).1 (by simp),
   (C7_euclideanDistance_contract [] []).2 rfl⟩

/-- The roster of the spec scenario of C9: subject `A` at `[0,0]` and
subject `B` at `[10,10]`. -/
def demoRoster : List EnrolledFace :=
  [{ studentId := "A", descriptor := [0, 0] },
   { studentId := "B", descriptor := [10, 10] }]

/-- Claim C9: on `demoRoster` with threshold `0.6`, probe `[0.1, 0.1]`
matches subject `A` with distance within `0.001` of `0.141` and confidence
within `0.001` of `0.859`, with confidence equal to
`max 0 (1 - distance)`; and probe `[5, 5]` yields no match. -/
theorem C9_demo_scenarios :
    (∃ m, findBestMatch [0.1, 0.1] demoRoster 0.6 = some m ∧
      m.studentId = "A" ∧
      |m.distance - 0.141| < 0.001 ∧
      |m.confidence - 0.859| < 0.001 ∧
      m.confidence = max 0 (1 - m.distance)) ∧
    findBestMatch [5, 5] demoRoster 0.6 = none := by
  have hdA : euclideanDistance [0.1, 0.1] [0, 0] = Except.ok (Real.sqrt 0.02) := by
    rw [euclideanDistance, if_neg (by simp)]
    have : sumSqDiff [0.1, 0.1] [0, 0] = 0.02 := by
      simp only [sumSqDiff, List.zip_cons_cons, List.zip_nil_right, List.foldl_cons,
        List.foldl_nil]
      norm_num
    rw [this]
  have hdB : euclideanDistance [0.1, 0.1] [10, 10] = Except.ok (Real.sqrt 196.02) := by
    rw [euclideanDistance, if_neg (by simp)]
    have : sumSqDiff [0.1, 0.1] [10, 10] = 196.02 := by
      simp only [sumSqDiff, List.zip_cons_cons, List.zip_nil_right, List.foldl_cons,
        List.foldl_nil]
      norm_num
    rw [this]
  have hsA : Real.sqrt 0.02 < 0.6 := by
    rw [Real.sqrt_lt' (by norm_num)]
    norm_num
  have hsA_lo : (0.141 : ℝ) < Real.sqrt 0.02 := by
    rw [Real.lt_sqrt (by norm_num)]
    norm_num
  have hsA_hi : Real.sqrt 0.02 < 0.142 := by
    rw [Real.sqrt_lt' (by norm_num)]
    norm_num
  have hsB : ¬ Real.sqrt 196.02 < 0.6 := by
    rw [Real.sqrt_lt' (by norm_num)]
    norm_num
  constructor
  · refine ⟨{ studentId := "A", distance := Real.sqrt 0.02,
              confidence := max 0 (1 - Real.sqrt 0.02) }, ?_, rfl, ?_, ?_, rfl⟩
    · rw [findBestMatch, if_neg (by simp [demoRoster]), demoRoster, findBestMatchGo]
      simp only [hdA]
      rw [if_pos ⟨EReal.coe_lt_top _, hsA⟩]
      rw [findBestMatchGo]
      simp only [hdB]
      rw [if_neg (fun hc => hsB hc.2)]
      rw [findBestMatchGo]
    · rw [abs_lt]
      constructor <;> nlinarith
    · have hmax : max 0 (1 - Real.sqrt 0.02) = 1 - Real.sqrt 0.02 :=
        max_eq_right (by nlinarith)
      rw [hmax, abs_lt]
      constructor <;> nlinarith
  · have hd5A : euclideanDistance [5, 5] [0, 0] = Except.ok (Real.sqrt 50) := by
      rw [euclideanDistance, if_neg (by simp)]
      have : sumSqDiff [5, 5] [0, 0] = 50 := by
        simp only [sumSqDiff, List.zip_cons_cons, List.zip_nil_right, List.foldl_cons,
          List.foldl_nil]
        norm_num
      rw [this]
    have hd5B : euclideanDistance [5, 5] [10, 10] = Except.ok (Real.sqrt 50) := by
      rw [euclideanDistance, if_neg (by simp)]
      have : sumSqDiff [5, 5] [10, 10] = 50 := by
        simp only [sumSqDiff, List.zip_cons_cons, List.zip_nil_right, List.foldl_cons,
          List.foldl_nil]
        norm_num
      rw [this]
    have hs50 : ¬ Real.sqrt 50 < 0.6 := by
      rw [Real.sqrt_lt' (by norm_num)]
      norm_num
    rw [findBestMatch, if_neg (by simp [demoRoster]), demoRoster, findBestMatchGo]
    simp only [hd5A]
    rw [if_neg (fun hc => hs50 hc.2)]
    rw [findBestMatchGo]
    simp only [hd5B]
    rw [if_neg (fun hc => hs50 hc.2)]
    rw [findBestMatchGo]

/-- Claim C10: for every probe, roster and threshold, roster entries whose
descriptor length differs from the probe are skipped (their per-entry
comparison failure is caught, never re-raised), and the result is the best
match among the remaining conformant entries, `none` when no such entry
qualifies.  Formally, `findBestMatch` is unchanged by restricting the roster
to the entries whose descriptor length equals the probe's length; in
particular it never evaluates to a length-mismatch error, its type having no
error outcome at all precisely because the loop catches them. -/
theorem C10_findBestMatch_skips_mismatched (probe : List ℝ)
    (faces : List EnrolledFace) (t : ℝ) :
    findBestMatch probe faces t =
      findBestMatch probe
        (faces.filter fun e => e.descriptor.length == probe.length) t := by
  rw [findBestMatch, findBestMatch]
  by_cases hlen : faces.length = 0
  · have : faces = [] := List.length_eq_zero.1 hlen
    subst this
    rfl
  · rw [if_neg hlen]
    by_cases hflen : (faces.filter fun e => e.descriptor.length == probe.length).length = 0
    · rw [if_pos hflen]
      rw [findBestMatchGo_filter]
      rw [List.length_eq_zero.1 hflen]
      rfl
    · rw [if_neg hflen]
      exact findBestMatchGo_filter probe t faces none ⊤

end Engine

namespace Engine

/-- Outcome of `loadFromUri` for the three required sub-models of one model
source: `tinyFaceDetector` (coarse detector), `faceLandmark68Net` (landmark
refiner) and `faceRecognitionNet` (embedding network).  `true` means the
load resolves, `false` that it rejects. -/
structure SubModelLoads where
  tinyFaceDetector : Bool
  faceLandmark68Net : Bool
  faceRecognitionNet : Bool

/-- The `Promise.all` of the three sub-model loads of one source succeeds
iff all three succeed. -/
def sourceLoadsAll (l : SubModelLoads) : Bool :=
  l.tinyFaceDetector && l.faceLandmark68Net && l.faceRecognitionNet

/-- `const modelSources = [...]` of `loadModels`: bundled local assets
first, then two remote mirrors. -/
def modelSources : List String :=
  ["/models",
   "https://raw.githubusercontent.com/vladmandic/face-api/master/model",
   "https://cdn.jsdelivr.net/npm/@vladmandic/face-api@1.7.15/model"]

/-- The observable outcome of one call of `loadModels`: the value of the
module-level flag `modelsLoaded` after the call, the sources attempted by
the `for (const source of modelSources)` loop in order, and the overall
result (`ok` for a normal return, `error` for the thrown
`Unable to load face detection models`). -/
structure LoadModelsResult where
  modelsLoaded : Bool
  attempted : List String
  result : Except EngineError Unit

/-- The source loop of `loadModels`, accumulating the attempted sources in
reverse; a source whose three sub-models all load ends the loop at once,
any other source is recorded (`lastError`) and the loop continues. -/
def loadModelsGo (outcome : String → SubModelLoads) :
    List String → List String → List String × Except EngineError Unit
  | [], attempted => (attempted.reverse, Except.error EngineError.modelUnavailable)
  | source :: rest, attempted =>
    if sourceLoadsAll (outcome source) then
      ((source :: attempted).reverse, Except.ok ())
    else
      loadModelsGo outcome rest (source :: attempted)

/-- `loadModels()`: returns immediately when the flag is already set,
otherwise walks the source list; the first fully-loading source sets the
flag, and if the loop falls through, the catch clause clears the flag and
rethrows the model-unavailable error. -/
def loadModels (modelsLoaded : Bool) (outcome : String → SubModelLoads) :
    LoadModelsResult :=
  if modelsLoaded then { modelsLoaded := true, attempted := [], result := Except.ok () }
  else
    match loadModelsGo outcome modelSources [] with
    | (attempted, Except.ok _) =>
      { modelsLoaded := true, attempted := attempted, result := Except.ok () }
    | (attempted, Except.error e) =>
      { modelsLoaded := false, attempted := attempted, result := Except.error e }

/-- Closed form of the source loop: the attempted sources are the failing
front of the list followed by the first succeeding source if any, and the
loop fails exactly when every source fails. -/
theorem loadModelsGo_spec (outcome : String → SubModelLoads) :
    ∀ (sources acc : List String),
      loadModelsGo outcome sources acc =
        (acc.reverse ++
          (sources.takeWhile (fun s => ! sourceLoadsAll (outcome s)) ++
            (sources.dropWhile (fun s => ! sourceLoadsAll (outcome s))).take 1),
         if sources.all (fun s => ! sourceLoadsAll (outcome s)) then
           Except.error EngineError.modelUnavailable
         else Except.ok ()) := by
  intro sources
  induction sources with
  | nil =>
    intro acc
    simp [loadModelsGo]
  | cons source rest ih =>
    intro acc
    by_cases hs : sourceLoadsAll (outcome source) = true
    · rw [loadModelsGo, if_pos hs]
      simp [hs, List.takeWhile_cons, List.dropWhile_cons]
    · have hs' : sourceLoadsAll (outcome source) = false := by
        revert hs
        cases sourceLoadsAll (outcome source) <;> simp
      rw [loadModelsGo, if_neg (by rw [hs']; simp), ih]
      simp [hs', List.takeWhile_cons, List.dropWhile_cons]

/-- Claim C5: model loading attempts the ordered source list, trying each
source at most once — the failing front of the list exactly once each, then
the first source whose three sub-models all load, after which it stops —
succeeds exactly when some source fully loads (setting the loaded flag);
and when every source fails it fails with the model-unavailable error,
leaves the loaded flag false, and a subsequent call with that flag attempts
every source once again instead of short-circuiting (while a call with the
flag already set attempts nothing). -/
theorem C5_loadModels_ordered_sources (outcome : String → SubModelLoads) :
    (loadModels false outcome).attempted =
      modelSources.takeWhile (fun s => ! sourceLoadsAll (outcome s)) ++
        (modelSources.dropWhile (fun s => ! sourceLoadsAll (outcome s))).take 1 ∧
    (loadModels false outcome).attempted.Nodup ∧
    ((loadModels false outcome).result = Except.ok () ↔
      ∃ s ∈ modelSources, sourceLoadsAll (outcome s) = true) ∧
    ((∃ s ∈ modelSources, sourceLoadsAll (outcome s) = true) →
      (loadModels false outcome).modelsLoaded = true) ∧
    ((∀ s ∈ modelSources, sourceLoadsAll (outcome s) = false) →
      (loadModels false outcome).result = Except.error EngineError.modelUnavailable ∧
      (loadModels false outcome).modelsLoaded = false ∧
      (loadModels (loadModels false outcome).modelsLoaded outcome).attempted =
        modelSources) ∧
    (loadModels true outcome).attempted = [] := by
  have hgo := loadModelsGo_spec outcome modelSources []
  simp only [List.reverse_nil, List.nil_append] at hgo
  have hnd : modelSources.Nodup := by decide
  have hsub : List.Sublist
      (modelSources.takeWhile (fun s => ! sourceLoadsAll (outcome s)) ++
        (modelSources.dropWhile (fun s => ! sourceLoadsAll (outcome s))).take 1)
      modelSources := by
    have h2 := (List.Sublist.refl
        (modelSources.takeWhile (fun s => ! sourceLoadsAll (outcome s)))).append
      (List.take_sublist 1
        (modelSources.dropWhile (fun s => ! sourceLoadsAll (outcome s))))
    rwa [List.takeWhile_append_dropWhile] at h2
  by_cases hall : modelSources.all (fun s => ! sourceLoadsAll (outcome s)) = true
  · have hval : loadModels false outcome =
        { modelsLoaded := false,
          attempted := modelSources.takeWhile (fun s => ! sourceLoadsAll (outcome s)) ++
            (modelSources.dropWhile (fun s => ! sourceLoadsAll (outcome s))).take 1,
          result := Except.error EngineError.modelUnavailable } := by
      rw [loadModels, if_neg (by simp), hgo, if_pos hall]
    have hfail : ∀ s ∈ modelSources, sourceLoadsAll (outcome s) = false := by
      simpa only [List.all_eq_true, Bool.not_eq_true'] using hall
    have hnofind : ¬ ∃ s ∈ modelSources, sourceLoadsAll (outcome s) = true := by
      rintro ⟨s, hs, hok⟩
      rw [hfail s hs] at hok
      cases hok
    have htake : modelSources.takeWhile (fun s => ! sourceLoadsAll (outcome s)) =
        modelSources :=
      List.takeWhile_eq_self_iff.2 (fun s hs => by rw [hfail s hs]; rfl)
    have hdrop : modelSources.dropWhile (fun s => ! sourceLoadsAll (outcome s)) = [] :=
      List.dropWhile_eq_nil_iff.2 (fun s hs => by rw [hfail s hs]; rfl)
    refine ⟨by rw [hval], ?_, ?_, fun hex => absurd hex hnofind, ?_,
      by rw [loadModels, if_pos rfl]⟩
    · rw [hval]
      exact hnd.sublist hsub
    · rw [hval]
      exact ⟨fun h => absurd h (by simp), fun hex => absurd hex hnofind⟩
    · intro _
      refine ⟨by rw [hval], by rw [hval], ?_⟩
      have hml : (loadModels false outcome).modelsLoaded = false := by rw [hval]
      rw [hml, hval, htake, hdrop]
      simp
  · have hval : loadModels false outcome =
        { modelsLoaded := true,
          attempted := modelSources.takeWhile (fun s => ! sourceLoadsAll (outcome s)) ++
            (modelSources.dropWhile (fun s => ! sourceLoadsAll (outcome s))).take 1,
          result := Except.ok () } := by
      rw [loadModels, if_neg (by simp), hgo, if_neg hall]
    have hex : ∃ s ∈ modelSources, sourceLoadsAll (outcome s) = true := by
      simp only [List.all_eq_true, Bool.not_eq_true'] at hall
      push_neg at hall
      rcases hall with ⟨s, hs, hok⟩
      refine ⟨s, hs, ?_⟩
      revert hok
      cases sourceLoadsAll (outcome s) <;> simp
    refine ⟨by rw [hval], ?_, ?_, fun _ => by rw [hval], ?_,
      by rw [loadModels, if_pos rfl]⟩
    · rw [hval]
      exact hnd.sublist hsub
    · rw [hval]
      exact ⟨fun _ => hex, fun _ => rfl⟩
    · intro hfail
      rcases hex with ⟨s, hs, hok⟩
      rw [hfail s hs] at hok
      cases hok

/-- The oracle in which every sub-model load of every source rejects. -/
def allSourcesFail : String → SubModelLoads :=
  fun _ => { tinyFaceDetector := false, faceLandmark68Net := false,
             faceRecognitionNet := false }

/-- The oracle in which every sub-model load of every source resolves. -/
def allSourcesLoad : String → SubModelLoads :=
  fun _ => { tinyFaceDetector := true, faceLandmark68Net := true,
             faceRecognitionNet := true }

/-- Witness for C5: with every source failing, `loadModels` fails with the
model-unavailable error, leaves the flag false and a repeat call attempts
the whole source list; with every source loading, the flag is set. -/
theorem C5_witness :
    (loadModels false allSourcesFail).result =
        Except.error EngineError.modelUnavailable ∧
      (loadModels false allSourcesFail).modelsLoaded = false ∧
      (loadModels (loadModels false allSourcesFail).modelsLoaded
        allSourcesFail).attempted = modelSources ∧
      (loadModels false allSourcesLoad).modelsLoaded = true := by
  have hfail := (C5_loadModels_ordered_sources allSourcesFail).2.2.2.2.1
    (fun s _ => rfl)
  have hload := (C5_loadModels_ordered_sources allSourcesLoad).2.2.2.1
    ⟨"/models", by simp [modelSources], rfl⟩
  exact ⟨hfail.1, hfail.2.1, hfail.2.2, hload⟩

/-- `getDescriptorFromVideoFrame(video)`: the whole body runs inside a
`try` whose `catch` returns `null`.  The parameter `detection` is the
oracle for the detector pipeline
(`detectSingleFace(...).withFaceLandmarks().withFaceDescriptor()`): an
exception, no face detected, or a descriptor.  The first component of the
result is the module flag after the call, the second the returned value —
the return type records that the function only ever produces a descriptor
or `null`, never an exception, because every internal failure is caught. -/
def getDescriptorFromVideoFrame (modelsLoaded : Bool)
    (outcome : String → SubModelLoads)
    (detection : Except EngineError (Option (List ℝ))) :
    Bool × Option (List ℝ) :=
  if modelsLoaded then
    match detection with
    | Except.error _ => (modelsLoaded, none)
    | Except.ok none => (modelsLoaded, none)
    | Except.ok (some descriptor) => (modelsLoaded, some descriptor)
  else
    match (loadModels modelsLoaded outcome).result with
    | Except.error _ => ((loadModels modelsLoaded outcome).modelsLoaded, none)
    | Except.ok _ =>
      match detection with
      | Except.error _ => ((loadModels modelsLoaded outcome).modelsLoaded, none)
      | Except.ok none => ((loadModels modelsLoaded outcome).modelsLoaded, none)
      | Except.ok (some descriptor) =>
        ((loadModels modelsLoaded outcome).modelsLoaded, some descriptor)

/-- Claim C6: descriptor extraction returns `null` (not an error) whenever
no face is found; every detector or runtime failure during extraction —
including a model-load failure — is reported as `null` rather than
propagated; and a descriptor is returned only when detection actually
produced one.  The total return type `Bool × Option (List ℝ)` itself
certifies that no exception escapes to the caller, so a failing single
frame cannot abort the scan loop. -/
theorem C6_getDescriptor_null_never_error (modelsLoaded : Bool)
    (outcome : String → SubModelLoads)
    (detection : Except EngineError (Option (List ℝ))) :
    (detection = Except.ok none →
      (getDescriptorFromVideoFrame modelsLoaded outcome detection).2 = none) ∧
    (∀ e, detection = Except.error e →
      (getDescriptorFromVideoFrame modelsLoaded outcome detection).2 = none) ∧
    (modelsLoaded = false →
      (loadModels modelsLoaded outcome).result =
        Except.error EngineError.modelUnavailable →
      (getDescriptorFromVideoFrame modelsLoaded outcome detection).2 = none) ∧
    (∀ d, (getDescriptorFromVideoFrame modelsLoaded outcome detection).2 = some d →
      detection = Except.ok (some d)) := by
  refine ⟨?_, ?_, ?_, ?_⟩
  · intro hdet
    subst hdet
    cases modelsLoaded with
    | true => rfl
    | false =>
      rw [getDescriptorFromVideoFrame.eq_def, if_neg (by simp)]
      cases hres : (loadModels false outcome).result <;> simp [hres]
  · intro e hdet
    subst hdet
    cases modelsLoaded with
    | true => rfl
    | false =>
      rw [getDescriptorFromVideoFrame.eq_def, if_neg (by simp)]
      cases hres : (loadModels false outcome).result <;> simp [hres]
  · intro hml hres
    subst hml
    rw [getDescriptorFromVideoFrame.eq_def, if_neg (by simp)]
    simp [hres]
  · intro d hd
    rw [getDescriptorFromVideoFrame.eq_def] at hd
    cases modelsLoaded with
    | true =>
      rw [if_pos rfl] at hd
      cases detection with
      | error e => exact absurd hd.symm (by simp)
      | ok o =>
        cases o with
        | none => exact absurd hd.symm (by simp)
        | some d' =>
          simp only [Prod.mk.injEq] at hd
          rw [hd]
    | false =>
      rw [if_neg (by simp)] at hd
      cases hres : (loadModels false outcome).result with
      | error e =>
        simp only [hres] at hd
        exact absurd hd.symm (by simp)
      | ok u =>
        simp only [hres] at hd
        cases detection with
        | error e => exact absurd hd.symm (by simp)
        | ok o =>
          cases o with
          | none => exact absurd hd.symm (by simp)
          | some d' =>
            simp only [Prod.mk.injEq] at hd
            rw [hd]

/-- Witness for C6: a no-face frame returns `null` with models loaded, a
detector exception returns `null`, a model-load failure returns `null`, and
a successful detection of the zero descriptor is the only way to get it
back. -/
theorem C6_witness :
    (getDescriptorFromVideoFrame true allSourcesLoad (Except.ok none)).2 = none ∧
    (getDescriptorFromVideoFrame true allSourcesLoad
      (Except.error EngineError.detectorFailure)).2 = none ∧
    (getDescriptorFromVideoFrame false allSourcesFail
      (Except.ok (some [0]))).2 = none ∧
    (Except.ok (some [(0 : ℝ)]) : Except EngineError (Option (List ℝ))) =
      Except.ok (some [(0 : ℝ)]) := by
  refine ⟨?_, ?_, ?_, ?_⟩
  · exact (C6_getDescriptor_null_never_error true allSourcesLoad (Except.ok none)).1 rfl
  · exact (C6_getDescriptor_null_never_error true allSourcesLoad
      (Except.error EngineError.detectorFailure)).2.1 EngineError.detectorFailure rfl
  · refine (C6_getDescriptor_null_never_error false allSourcesFail
      (Except.ok (some [0]))).2.2.1 rfl ?_
    exact ((C5_loadModels_ordered_sources allSourcesFail).2.2.2.2.1
      (fun s _ => rfl)).1
  · exact (C6_getDescriptor_null_never_error true allSourcesLoad
      (Except.ok (some [0]))).2.2.2 [0] rfl

end Engine

namespace FaceScan

open Engine

/-- `interface FaceSettings` of `FaceSettingsDialog`, consumed by
`FaceScanDialog`. -/
structure FaceSettings where
  confidenceThreshold : ℝ
  autoMarkThreshold : ℝ
  hapticFeedback : Bool
  scanInterval : ℕ

/-- The `useState` initializer of the settings in `FaceScanDialog`:
display threshold 0.4, auto-mark threshold 0.6, haptics on, 1000 ms scan
interval. -/
noncomputable def defaultSettings : FaceSettings :=
  { confidenceThreshold := 0.4, autoMarkThreshold := 0.6,
    hapticFeedback := true, scanInterval := 1000 }

/-- `interface Student` of `FaceScanDialog`. -/
structure Student where
  id : String
  name : String
  roll_number : String
  face_descriptor : Option (List ℝ)

/-- `s.face_descriptor && s.face_descriptor.length > 0`. -/
def hasDescriptor (s : Student) : Bool :=
  match s.face_descriptor with
  | none => false
  | some d => decide (0 < d.length)

/-- `const enrolledStudents = students.filter(...)`. -/
def enrolledStudents (students : List Student) : List Student :=
  students.filter hasDescriptor

/-- `enrolledStudents.map(s => ({ studentId: s.id, descriptor:
s.face_descriptor! }))`; the non-null assertion is modelled by `getD []`,
which the filter guarantees is never taken at `none`. -/
def enrolledFacesOf (students : List Student) : List EnrolledFace :=
  (enrolledStudents students).map
    (fun s => { studentId := s.id, descriptor := s.face_descriptor.getD [] })

/-- The status argument of `onMarkAttendance`. -/
inductive AttStatus where
  | present
  | absent
  | late
deriving DecidableEq, Repr

/-- Scan-session state of the dialog: `isStreaming`/`isScanning` mirror the
`useState` flags, `scanIntervalActive` is `scanIntervalRef.current !== null`,
`lastMatch` the displayed `{studentName, confidence}` pair, `scanCount` the
tick counter, and `pendingResume` the absolute time at which a cooldown
`setTimeout` scheduled by the auto-mark branch will fire (`none` when no
resume is pending). -/
structure ScanState where
  isStreaming : Bool
  isScanning : Bool
  scanIntervalActive : Bool
  lastMatch : Option (String × ℝ)
  scanCount : ℕ
  pendingResume : Option ℕ

/-- `startScanning()`: a no-op when the interval is already installed,
otherwise marks scanning, resets the counter and installs the interval. -/
def startScanning (st : ScanState) : ScanState :=
  if st.scanIntervalActive then st
  else { st with isScanning := true, scanCount := 0, scanIntervalActive := true }

/-- `stopScanning()`: clears the interval and the scanning flag. -/
def stopScanning (st : ScanState) : ScanState :=
  { st with isScanning := false, scanIntervalActive := false }

/-- Output of one `performScan` tick: the new session state, the
`onMarkAttendance` invocations of the tick, and whether a haptic pulse
fired. -/
structure TickOutput where
  state : ScanState
  marks : List (String × AttStatus)
  haptic : Bool

/-- `performScan()` at absolute time `now`; `descriptor` is the value the
extraction adapter returned for the current frame (`none` for no face or a
caught failure, per `getDescriptorFromVideoFrame`).  A match above the
display threshold is surfaced as `lastMatch`; if it also clears the
auto-mark threshold for a subject absent from the externally supplied
`attendanceMarked` set, `onMarkAttendance(id, 'present')` fires, the haptic
setting is honoured, scanning stops and a resume is scheduled 2000 ms
later; otherwise (no match or low confidence) `lastMatch` is cleared. -/
noncomputable def performScan (settings : FaceSettings) (students : List Student)
    (attendanceMarked : List String) (now : ℕ) (st : ScanState)
    (descriptor : Option (List ℝ)) : TickOutput :=
  if st.isStreaming = false then { state := st, marks := [], haptic := false }
  else
    match descriptor with
    | none => { state := st, marks := [], haptic := false }
    | some desc =>
      match findBestMatch desc (enrolledFacesOf students)
          settings.confidenceThreshold with
      | some m =>
        if m.confidence > settings.confidenceThreshold then
          match students.find? (fun s => s.id == m.studentId) with
          | some student =>
            if m.confidence > settings.autoMarkThreshold ∧
                attendanceMarked.contains student.id = false then
              { state := { st with
                  lastMatch := some (student.name, m.confidence)
                  isScanning := false
                  scanIntervalActive := false
                  pendingResume := some (now + 2000) }
                marks := [(student.id, AttStatus.present)]
                haptic := settings.hapticFeedback }
            else
              { state := { st with lastMatch := some (student.name, m.confidence) }
                marks := []
                haptic := false }
          | none => { state := st, marks := [], haptic := false }
        else
          { state := { st with lastMatch := none }, marks := [], haptic := false }
      | none =>
        { state := { st with lastMatch := none }, marks := [], haptic := false }

/-- The body of the cooldown `setTimeout`: the pending resume has fired,
and `if (isStreaming) startScanning()`. -/
def resumeTimer (st : ScanState) : ScanState :=
  if st.isStreaming then startScanning { st with pendingResume := none }
  else { st with pendingResume := none }

/-- An occurrence on the scan-loop timeline: the repeating interval fires a
tick (with the descriptor the adapter produced for that frame), or the
scheduled cooldown timeout fires. -/
inductive ScanEvent where
  | tick : Option (List ℝ) → ScanEvent
  | resume : ScanEvent

/-- An event together with its absolute time in milliseconds. -/
structure TimedEvent where
  time : ℕ
  event : ScanEvent

/-- Scheduling validity of the automatic scan loop: an interval tick can
fire only while the interval is installed, and the cooldown timeout fires
exactly at its scheduled time. -/
def canFire (st : ScanState) (e : TimedEvent) : Prop :=
  match e.event with
  | ScanEvent.tick _ => st.scanIntervalActive = true
  | ScanEvent.resume => st.pendingResume = some e.time

/-- One step of the scan-loop timeline: an interval tick runs `performScan`
and then `setScanCount(prev => prev + 1)`; the cooldown timeout runs
`resumeTimer`. -/
noncomputable def stepEvent (settings : FaceSettings) (students : List Student)
    (attendanceMarked : List String) (st : ScanState) (e : TimedEvent) :
    ScanState × List (String × AttStatus) :=
  match e.event with
  | ScanEvent.tick d =>
    ({ (performScan settings students attendanceMarked e.time st d).state with
        scanCount :=
          (performScan settings students attendanceMarked e.time st d).state.scanCount
            + 1 },
     (performScan settings students attendanceMarked e.time st d).marks)
  | ScanEvent.resume => (resumeTimer st, [])

/-- Valid timelines of the automatic scan loop from a state: each event can
fire in the state reached by its forebears. -/
inductive ValidTrace (settings : FaceSettings) (students : List Student)
    (attendanceMarked : List String) : ScanState → List TimedEvent → Prop where
  | nil : ∀ st, ValidTrace settings students attendanceMarked st []
  | cons : ∀ st e es, canFire st e →
      ValidTrace settings students attendanceMarked
        (stepEvent settings students attendanceMarked st e).1 es →
      ValidTrace settings students attendanceMarked st (e :: es)

/-- The attendance marks a timeline emits, in order. -/
noncomputable def traceMarks (settings : FaceSettings) (students : List Student)
    (attendanceMarked : List String) : ScanState → List TimedEvent →
      List (String × AttStatus)
  | _, [] => []
  | st, e :: es =>
    (stepEvent settings students attendanceMarked st e).2 ++
      traceMarks settings students attendanceMarked
        (stepEvent settings students attendanceMarked st e).1 es

/-- While the interval is cleared and the only pending timer is the cooldown
at time `T`, no scan-loop event can fire strictly before `T`: the valid
timeline inside the cooldown window is empty. -/
theorem window_trace_empty (settings : FaceSettings) (students : List Student)
    (attendanceMarked : List String) (T : ℕ) (st : ScanState)
    (es : List TimedEvent)
    (hint : st.scanIntervalActive = false) (hpend : st.pendingResume = some T)
    (hvalid : ValidTrace settings students attendanceMarked st es)
    (htimes : ∀ e ∈ es, e.time < T) : es = [] := by
  cases hvalid with
  | nil => rfl
  | cons st e es hfire hrest =>
    exfalso
    obtain ⟨tm, ev⟩ := e
    cases ev with
    | tick d =>
      rw [canFire] at hfire
      rw [hint] at hfire
      cases hfire
    | resume =>
      rw [canFire] at hfire
      rw [hpend] at hfire
      have htm : tm = T := by
        injection hfire.symm
      have hmem : tm < T := htimes { time := tm, event := ScanEvent.resume } (by simp)
      omega

/-- Evaluation of a tick in which `findBestMatch` produced no match (or
none above the display threshold can exist): the displayed match is cleared
and nothing else happens. -/
theorem performScan_no_match (settings : FaceSettings) (students : List Student)
    (attendanceMarked : List String) (now : ℕ) (st : ScanState) (probe : List ℝ)
    (hstream : st.isStreaming = true)
    (hmatch : findBestMatch probe (enrolledFacesOf students)
      settings.confidenceThreshold = none) :
    performScan settings students attendanceMarked now st (some probe) =
      { state := { st with lastMatch := none }, marks := [], haptic := false } := by
  rw [performScan.eq_def, if_neg (by rw [hstream]; simp)]
  simp only [hmatch]

/-- Evaluation of the auto-mark tick: match above both thresholds, matched
student found, not yet marked. -/
theorem performScan_auto_mark (settings : FaceSettings) (students : List Student)
    (attendanceMarked : List String) (now : ℕ) (st : ScanState) (desc : List ℝ)
    (m : FaceMatch) (student : Student)
    (hstream : st.isStreaming = true)
    (hmatch : findBestMatch desc (enrolledFacesOf students)
      settings.confidenceThreshold = some m)
    (hconf : m.confidence > settings.confidenceThreshold)
    (hauto : m.confidence > settings.autoMarkThreshold)
    (hfind : students.find? (fun s => s.id == m.studentId) = some student)
    (hunmarked : attendanceMarked.contains student.id = false) :
    performScan settings students attendanceMarked now st (some desc) =
      { state := { st with
          lastMatch := some (student.name, m.confidence)
          isScanning := false
          scanIntervalActive := false
          pendingResume := some (now + 2000) }
        marks := [(student.id, AttStatus.present)]
        haptic := settings.hapticFeedback } := by
  rw [performScan.eq_def, if_neg (by rw [hstream]; simp)]
  simp only [hmatch]
  rw [if_pos hconf]
  simp only [hfind]
  rw [if_pos ⟨hauto, hunmarked⟩]

/-- Constructor shorthand for a scan-dialog student record. -/
def mkStudent (sid snm sroll : String) (d : Option (List ℝ)) : Student :=
  { id := sid, name := snm, roll_number := sroll, face_descriptor := d }

/-- A single student with a non-empty stored descriptor is the whole
enrolled roster. -/
theorem enrolledFacesOf_single (sid snm sroll : String) (descA : List ℝ)
    (hlen : descA.length ≠ 0) :
    enrolledFacesOf [mkStudent sid snm sroll (some descA)] =
      [{ studentId := sid, descriptor := descA }] := by
  rw [enrolledFacesOf, enrolledStudents]
  have hhd : hasDescriptor (mkStudent sid snm sroll (some descA)) = true := by
    rw [mkStudent, hasDescriptor]
    simpa using Nat.pos_of_ne_zero hlen
  rw [List.filter_cons, if_pos hhd]
  rfl

/-- A lone candidate at distance exactly `0.5` from the probe is rejected
by `findBestMatch` under the distance bound `0.4`. -/
theorem findBestMatch_none_at_half (probe descA : List ℝ) (sid : String)
    (hdist : euclideanDistance probe descA = Except.ok 0.5) :
    findBestMatch probe [{ studentId := sid, descriptor := descA }] (0.4 : ℝ) =
      none := by
  rw [findBestMatch, if_neg (by simp), findBestMatchGo]
  simp only [hdist]
  rw [if_neg (fun hc => absurd hc.2 (by norm_num))]
  rw [findBestMatchGo]

/-- Claim C2: in a scanning tick whose match clears the display threshold
and the auto-mark threshold for a subject not in the externally supplied
marked set, the attendance-mark callback is invoked exactly once, scanning
pauses (the flag drops and the interval is cleared), a resume is scheduled
exactly 2000 ms later, no scan-loop event — in particular no second
invocation for that subject — can occur strictly within that window, and at
the scheduled time the cooldown fires and scanning resumes with no further
mark. -/
theorem C2_auto_mark_pause_and_cooldown (settings : FaceSettings)
    (students : List Student) (attendanceMarked : List String)
    (st stPost : ScanState) (now : ℕ) (desc : List ℝ) (m : FaceMatch)
    (student : Student)
    (hstream : st.isStreaming = true)
    (hmatch : findBestMatch desc (enrolledFacesOf students)
      settings.confidenceThreshold = some m)
    (hconf : m.confidence > settings.confidenceThreshold)
    (hauto : m.confidence > settings.autoMarkThreshold)
    (hfind : students.find? (fun s => s.id == m.studentId) = some student)
    (hunmarked : attendanceMarked.contains student.id = false)
    (hpost : stPost = (stepEvent settings students attendanceMarked st
      { time := now, event := ScanEvent.tick (some desc) }).1) :
    (performScan settings students attendanceMarked now st (some desc)).marks =
      [(student.id, AttStatus.present)] ∧
    stPost.isScanning = false ∧
    stPost.scanIntervalActive = false ∧
    stPost.pendingResume = some (now + 2000) ∧
    (∀ es, ValidTrace settings students attendanceMarked stPost es →
      (∀ e ∈ es, e.time < now + 2000) →
      traceMarks settings students attendanceMarked stPost es = []) ∧
    canFire stPost { time := now + 2000, event := ScanEvent.resume } ∧
    (stepEvent settings students attendanceMarked stPost
      { time := now + 2000, event := ScanEvent.resume }).1.isScanning = true ∧
    (stepEvent settings students attendanceMarked stPost
      { time := now + 2000, event := ScanEvent.resume }).2 = [] := by
  have hps := performScan_auto_mark settings students attendanceMarked now st desc
    m student hstream hmatch hconf hauto hfind hunmarked
  have hpost' : stPost = { st with
      lastMatch := some (student.name, m.confidence)
      isScanning := false
      scanIntervalActive := false
      pendingResume := some (now + 2000)
      scanCount := st.scanCount + 1 } := by
    rw [hpost, stepEvent]
    simp only [hps]
  have hint : stPost.scanIntervalActive = false := by rw [hpost']
  have hpend : stPost.pendingResume = some (now + 2000) := by rw [hpost']
  have hstr : stPost.isStreaming = true := by rw [hpost']; exact hstream
  refine ⟨by rw [hps], by rw [hpost'], hint, hpend, ?_, ?_, ?_, rfl⟩
  · intro es hv ht
    have hnil := window_trace_empty settings students attendanceMarked (now + 2000)
      stPost es hint hpend hv ht
    rw [hnil, traceMarks]
  · rw [canFire]
    exact hpend
  · rw [stepEvent]
    rw [resumeTimer, if_pos hstr, startScanning]
    rw [if_neg (by rw [hint]; simp)]

/-- The student of the concrete scan scenarios: `a1`, named Alice, with the
stored descriptor `[0, 0]`. -/
noncomputable def demoStudentA : Student :=
  { id := "a1", name := "Alice", roll_number := "1",
    face_descriptor := some [0, 0] }

/-- The session state of the concrete scan scenarios: streaming and
scanning with the interval installed, nothing displayed, no pending
cooldown. -/
def demoScanState : ScanState :=
  { isStreaming := true, isScanning := true, scanIntervalActive := true,
    lastMatch := none, scanCount := 0, pendingResume := none }

/-- The probe `[0.18, 0.24]` lies at distance `0.3` from the stored
descriptor `[0, 0]` — confidence `0.7`. -/
theorem euclid_probe_point3 :
    euclideanDistance [0.18, 0.24] [0, 0] = Except.ok 0.3 := by
  rw [euclideanDistance, if_neg (by simp)]
  have hsum : sumSqDiff [0.18, 0.24] [0, 0] = 0.09 := by
    simp only [sumSqDiff, List.zip_cons_cons, List.zip_nil_right, List.foldl_cons,
      List.foldl_nil]
    norm_num
  rw [hsum, show (0.09 : ℝ) = 0.3 ^ 2 by norm_num, Real.sqrt_sq (by norm_num)]

/-- The probe `[0.3, 0.4]` lies at distance `0.5` from the stored
descriptor `[0, 0]` — confidence `0.5`. -/
theorem euclid_probe_point5 :
    euclideanDistance [0.3, 0.4] [0, 0] = Except.ok 0.5 := by
  rw [euclideanDistance, if_neg (by simp)]
  have hsum : sumSqDiff [0.3, 0.4] [0, 0] = 0.25 := by
    simp only [sumSqDiff, List.zip_cons_cons, List.zip_nil_right, List.foldl_cons,
      List.foldl_nil]
    norm_num
  rw [hsum, show (0.25 : ℝ) = 0.5 ^ 2 by norm_num, Real.sqrt_sq (by norm_num)]

/-- On the roster `[demoStudentA]`, the probe `[0.18, 0.24]` is matched to
`a1` with distance `0.3` and confidence `0.7` under the default display
threshold. -/
theorem findBestMatch_demo_confidence7 :
    findBestMatch [0.18, 0.24] (enrolledFacesOf [demoStudentA])
      defaultSettings.confidenceThreshold =
      some { studentId := "a1", distance := 0.3, confidence := 0.7 } := by
  have hfaces : enrolledFacesOf [demoStudentA] =
      [{ studentId := "a1", descriptor := [0, 0] }] :=
    enrolledFacesOf_single "a1" "Alice" "1" [0, 0] (by simp)
  rw [hfaces]
  show findBestMatch [0.18, 0.24] [{ studentId := "a1", descriptor := [0, 0] }]
      (0.4 : ℝ) = _
  rw [findBestMatch, if_neg (by simp), findBestMatchGo]
  simp only [euclid_probe_point3]
  rw [if_pos ⟨EReal.coe_lt_top _, by norm_num⟩]
  rw [findBestMatchGo]
  norm_num

/-- Witness for C2: the concrete confidence-0.7 tick marks `a1` exactly
once, schedules the resume for 2000 ms later, and the resume restores
scanning. -/
theorem C2_witness :
    (performScan defaultSettings [demoStudentA] [] 10000 demoScanState
      (some [0.18, 0.24])).marks = [("a1", AttStatus.present)] ∧
    (stepEvent defaultSettings [demoStudentA] [] demoScanState
      { time := 10000, event := ScanEvent.tick (some [0.18, 0.24]) }).1.pendingResume
      = some 12000 ∧
    canFire (stepEvent defaultSettings [demoStudentA] [] demoScanState
      { time := 10000, event := ScanEvent.tick (some [0.18, 0.24]) }).1
      { time := 12000, event := ScanEvent.resume } ∧
    (stepEvent defaultSettings [demoStudentA] []
      (stepEvent defaultSettings [demoStudentA] [] demoScanState
        { time := 10000, event := ScanEvent.tick (some [0.18, 0.24]) }).1
      { time := 12000, event := ScanEvent.resume }).1.isScanning = true := by
  obtain ⟨h1, h2, h3, h4, h5, h6, h7, h8⟩ :=
    C2_auto_mark_pause_and_cooldown defaultSettings [demoStudentA] []
      demoScanState _ 10000 [0.18, 0.24]
      { studentId := "a1", distance := 0.3, confidence := 0.7 } demoStudentA
      rfl findBestMatch_demo_confidence7 (by norm_num [defaultSettings])
      (by norm_num [defaultSettings]) rfl rfl rfl
  exact ⟨h1, h4, h6, h7⟩

/-- Counterexample to C3: with the default thresholds (display 0.4,
auto-mark 0.6), a tick whose only candidate lies at distance `0.5`
(confidence `0.5`) produces no match at all — `findBestMatch` is called
with the confidence threshold as its distance bound and rejects the
candidate — so the tick clears the displayed match instead of surfacing the
subject as the tentative match, and does not invoke the callback. -/
theorem C3_counterexample_confidence_half :
    findBestMatch [0.3, 0.4] (enrolledFacesOf [demoStudentA])
      defaultSettings.confidenceThreshold = none ∧
    (performScan defaultSettings [demoStudentA] [] 10000 demoScanState
      (some [0.3, 0.4])).state.lastMatch = none ∧
    (performScan defaultSettings [demoStudentA] [] 10000 demoScanState
      (some [0.3, 0.4])).marks = [] := by
  have hfaces : enrolledFacesOf [demoStudentA] =
      [{ studentId := "a1", descriptor := [0, 0] }] :=
    enrolledFacesOf_single "a1" "Alice" "1" [0, 0] (by simp)
  have hnone : findBestMatch [0.3, 0.4] (enrolledFacesOf [demoStudentA])
      defaultSettings.confidenceThreshold = none := by
    rw [hfaces]
    exact findBestMatch_none_at_half [0.3, 0.4] [0, 0] "a1" euclid_probe_point5
  have hps := performScan_no_match defaultSettings [demoStudentA] [] 10000
    demoScanState [0.3, 0.4] rfl hnone
  exact ⟨hnone, by rw [hps], by rw [hps]⟩

/-- Claim C3 as amended: with the default thresholds, a scanning tick whose
sole enrolled subject lies at distance `0.5` (confidence `0.5`) from the
probe and is not yet marked does NOT display that subject as the tentative
match — the displayed match is cleared, because `findBestMatch` receives
the confidence threshold `0.4` as its distance bound and rejects the
candidate — and does not invoke the attendance-mark callback. -/
theorem C3_amended_distance_half (probe descA : List ℝ)
    (sid snm sroll : String) (marked : List String) (st : ScanState) (now : ℕ)
    (hstream : st.isStreaming = true)
    (hlen : descA.length ≠ 0)
    (hdist : euclideanDistance probe descA = Except.ok 0.5) :
    (performScan defaultSettings [mkStudent sid snm sroll (some descA)]
      marked now st (some probe)).state.lastMatch = none ∧
    (performScan defaultSettings [mkStudent sid snm sroll (some descA)]
      marked now st (some probe)).marks = [] := by
  have hmatch : findBestMatch probe
      (enrolledFacesOf [mkStudent sid snm sroll (some descA)])
      defaultSettings.confidenceThreshold = none := by
    rw [enrolledFacesOf_single sid snm sroll descA hlen]
    exact findBestMatch_none_at_half probe descA sid hdist
  have hps := performScan_no_match defaultSettings
    [mkStudent sid snm sroll (some descA)] marked now st probe hstream hmatch
  exact ⟨by rw [hps], by rw [hps]⟩

/-- Witness for the amended C3 at the concrete scenario: subject `a1` at
distance `0.5` from the probe `[0.3, 0.4]` is neither displayed nor
marked. -/
theorem C3_witness :
    (performScan defaultSettings [mkStudent "a1" "Alice" "1" (some [0, 0])]
      [] 10000 demoScanState (some [0.3, 0.4])).state.lastMatch = none ∧
    (performScan defaultSettings [mkStudent "a1" "Alice" "1" (some [0, 0])]
      [] 10000 demoScanState (some [0.3, 0.4])).marks = [] :=
  C3_amended_distance_half [0.3, 0.4] [0, 0] "a1" "Alice" "1" [] demoScanState
    10000 rfl (by simp) euclid_probe_point5

end FaceScan

namespace BatchEnroll

/-- `interface Student` of `BatchEnrollDialog` (the fields the enrollment
flow reads). -/
structure Student where
  id : String
  name : String
  roll_number : String
  face_descriptor : Option (List ℝ)

/-- `!s.face_descriptor || s.face_descriptor.length === 0`. -/
def notEnrolled (s : Student) : Bool :=
  match s.face_descriptor with
  | none => true
  | some d => decide (d.length = 0)

/-- `const unenrolledStudents = students.filter(...)`. -/
def unenrolledStudents (students : List Student) : List Student :=
  students.filter notEnrolled

/-- Dialog state of the batch flow: `currentStudentIndex` and
`enrolledStudents` mirror the `useState` values, `isOpen` whether the
dialog is open, and `completions` counts the `onEnrollmentComplete()`
invocations — the notifications of the external roster-update
collaborator (the callback itself carries no payload). -/
structure BatchState where
  currentStudentIndex : ℕ
  enrolledStudents : List String
  isOpen : Bool
  completions : ℕ
deriving DecidableEq, Repr

/-- The state when the dialog opens. -/
def initialBatchState : BatchState :=
  { currentStudentIndex := 0, enrolledStudents := [], isOpen := true,
    completions := 0 }

/-- A user action in the batch flow: a capture (`dbOk` says whether the
database update of the student record succeeds; a failed image upload only
affects the stored photo URL and is absorbed silently) or a skip. -/
inductive BatchEvent where
  | capture : Bool → BatchEvent
  | skip : BatchEvent

/-- `handleClose()`: reset the index and the session set, close the
dialog. -/
def handleClose (st : BatchState) : BatchState :=
  { currentStudentIndex := 0, enrolledStudents := [], isOpen := false,
    completions := st.completions }

/-- One step of the batch flow over the unenrolled list.
`handleFaceCapture`: guarded by `if (!currentStudent) return`; a thrown
database error is caught, leaving index and session set unchanged; on
success the id joins the session set, and either the index advances
(`currentStudentIndex < unenrolledStudents.length - 1`) or — on the last
subject — `onEnrollmentComplete()` fires once and the dialog closes.
`skipStudent`: advance the index, or on the last subject close WITHOUT any
completion notification.  When the dialog is not open the component renders
`null`, so a step has no effect. -/
def batchStep (unenrolled : List Student) (st : BatchState) :
    BatchEvent → BatchState
  | BatchEvent.capture dbOk =>
    if st.isOpen = false ∨ unenrolled.length = 0 then st
    else
      match unenrolled.get? st.currentStudentIndex with
      | none => st
      | some current =>
        if dbOk = false then st
        else
          if st.currentStudentIndex < unenrolled.length - 1 then
            { st with
                enrolledStudents := current.id :: st.enrolledStudents
                currentStudentIndex := st.currentStudentIndex + 1 }
          else
            handleClose { st with
              enrolledStudents := current.id :: st.enrolledStudents
              completions := st.completions + 1 }
  | BatchEvent.skip =>
    if st.isOpen = false ∨ unenrolled.length = 0 then st
    else if st.currentStudentIndex < unenrolled.length - 1 then
      { st with currentStudentIndex := st.currentStudentIndex + 1 }
    else handleClose st

/-- A run of the batch dialog over a sequence of user actions. -/
def batchRun (unenrolled : List Student) (st : BatchState)
    (events : List BatchEvent) : BatchState :=
  events.foldl (batchStep unenrolled) st

/-- A closed dialog is frozen: no step has any effect. -/
theorem batchStep_closed (unenrolled : List Student) (st : BatchState)
    (ev : BatchEvent) (h : st.isOpen = false) :
    batchStep unenrolled st ev = st := by
  cases ev with
  | capture dbOk => rw [batchStep, if_pos (Or.inl h)]
  | skip => rw [batchStep, if_pos (Or.inl h)]

/-- A closed dialog stays frozen over a whole run. -/
theorem batchRun_closed (unenrolled : List Student) :
    ∀ (events : List BatchEvent) (st : BatchState), st.isOpen = false →
      batchRun unenrolled st events = st := by
  intro events
  induction events with
  | nil =>
    intro st _
    rfl
  | cons e es ih =>
    intro st h
    show batchRun unenrolled (batchStep unenrolled st e) es = st
    rw [batchStep_closed unenrolled st e h]
    exact ih st h

/-- Per-step accounting of the completion notifications: one step fires at
most one, and a step that leaves the dialog open fires none. -/
theorem batchStep_completions (unenrolled : List Student) (st : BatchState)
    (ev : BatchEvent) :
    (batchStep unenrolled st ev).completions ≤ st.completions + 1 ∧
    ((batchStep unenrolled st ev).isOpen = true →
      (batchStep unenrolled st ev).completions = st.completions) := by
  cases ev with
  | capture dbOk =>
    rw [batchStep]
    split
    · exact ⟨Nat.le_succ _, fun _ => rfl⟩
    · split
      · exact ⟨Nat.le_succ _, fun _ => rfl⟩
      · split
        · exact ⟨Nat.le_succ _, fun _ => rfl⟩
        · split
          · exact ⟨Nat.le_succ _, fun _ => rfl⟩
          · refine ⟨Nat.le_refl _, ?_⟩
            intro hopen
            exact absurd hopen (by rw [handleClose]; simp)
  | skip =>
    rw [batchStep]
    split
    · exact ⟨Nat.le_succ _, fun _ => rfl⟩
    · split
      · exact ⟨Nat.le_succ _, fun _ => rfl⟩
      · refine ⟨Nat.le_succ _, ?_⟩
        intro hopen
        exact absurd hopen (by rw [handleClose]; simp)

/-- Over any run from an open state with no notification yet, at most one
completion notification ever fires. -/
theorem batchRun_completions_le_one (unenrolled : List Student) :
    ∀ (events : List BatchEvent) (st : BatchState), st.isOpen = true →
      st.completions = 0 →
      (batchRun unenrolled st events).completions ≤ 1 := by
  intro events
  induction events with
  | nil =>
    intro st _ hc
    show st.completions ≤ 1
    omega
  | cons e es ih =>
    intro st hopen hc
    show (batchRun unenrolled (batchStep unenrolled st e) es).completions ≤ 1
    have hstep := batchStep_completions unenrolled st e
    cases hop : (batchStep unenrolled st e).isOpen with
    | true =>
      exact ih (batchStep unenrolled st e) hop (by rw [hstep.2 hop, hc])
    | false =>
      rw [batchRun_closed unenrolled es (batchStep unenrolled st e) hop]
      omega

end BatchEnroll

namespace BatchEnroll

/-- The single not-yet-enrolled subject of the concrete batch scenario. -/
def demoBatchStudent : Student :=
  { id := "s1", name := "Sam", roll_number := "1", face_descriptor := none }

/-- Counterexample to C8: over the one-subject batch `[s1]`, the run
consisting of a single skip ends the flow — the dialog closes with the
index having passed the last subject — yet the roster-update collaborator
is notified zero times, not exactly once as the claim states. -/
theorem C8_counterexample_skip_last :
    (batchRun [demoBatchStudent] initialBatchState [BatchEvent.skip]).isOpen
      = false ∧
    (batchRun [demoBatchStudent] initialBatchState
      [BatchEvent.skip]).completions = 0 ∧
    ¬ (batchRun [demoBatchStudent] initialBatchState
      [BatchEvent.skip]).completions = 1 := by
  refine ⟨rfl, rfl, ?_⟩
  intro h
  simp [batchRun, batchStep, initialBatchState, handleClose] at h

/-- Claim C8 as amended: batch enrollment advances an index over the
not-yet-enrolled subjects with a capture-or-skip step per subject; a skip
never notifies the roster-update collaborator — in particular a skip on the
last subject closes the dialog without notification — while a successful
capture of the last subject notifies the collaborator exactly once (the
parameterless completion callback) and closes the dialog; and over any run
from dialog opening the collaborator is notified at most once. -/
theorem C8_amended_completion (unenrolled : List Student) :
    (∀ st, (batchStep unenrolled st BatchEvent.skip).completions =
      st.completions) ∧
    (∀ st, st.isOpen = true → st.currentStudentIndex < unenrolled.length - 1 →
      (batchStep unenrolled st BatchEvent.skip).currentStudentIndex =
        st.currentStudentIndex + 1) ∧
    (∀ st current, st.isOpen = true →
      unenrolled.get? st.currentStudentIndex = some current →
      st.currentStudentIndex < unenrolled.length - 1 →
      (batchStep unenrolled st (BatchEvent.capture true)).currentStudentIndex =
        st.currentStudentIndex + 1 ∧
      (batchStep unenrolled st (BatchEvent.capture true)).completions =
        st.completions) ∧
    (∀ st current, st.isOpen = true →
      unenrolled.get? st.currentStudentIndex = some current →
      ¬ st.currentStudentIndex < unenrolled.length - 1 →
      batchStep unenrolled st (BatchEvent.capture true) =
        { currentStudentIndex := 0, enrolledStudents := [], isOpen := false,
          completions := st.completions + 1 }) ∧
    (∀ events, (batchRun unenrolled initialBatchState events).completions ≤ 1) := by
  have hlen : ∀ st : BatchState, unenrolled.get? st.currentStudentIndex ≠ none →
      ¬ unenrolled.length = 0 := by
    intro st hget hzero
    apply hget
    rw [List.get?_eq_none]
    omega
  refine ⟨?_, ?_, ?_, ?_, ?_⟩
  · intro st
    rw [batchStep]
    split
    · rfl
    · split
      · rfl
      · rw [handleClose]
  · intro st hopen hidx
    have hnz : ¬ unenrolled.length = 0 := by omega
    rw [batchStep, if_neg (by rw [hopen]; simp [hnz]), if_pos hidx]
  · intro st current hopen hget hidx
    rw [batchStep, if_neg (by rw [hopen]; simp [hlen st (by rw [hget]; simp)])]
    simp only [hget]
    rw [if_neg (by simp), if_pos hidx]
    exact ⟨rfl, rfl⟩
  · intro st current hopen hget hidx
    rw [batchStep, if_neg (by rw [hopen]; simp [hlen st (by rw [hget]; simp)])]
    simp only [hget]
    rw [if_neg (by simp), if_neg hidx, handleClose]
  · intro events
    exact batchRun_completions_le_one unenrolled events initialBatchState rfl rfl

/-- Witness for the amended C8: on the one-subject batch `[s1]`, a skip
leaves the notification count unchanged, and a successful capture of that
(last) subject closes the dialog having notified exactly once. -/
theorem C8_witness :
    (batchStep [demoBatchStudent] initialBatchState BatchEvent.skip).completions =
      initialBatchState.completions ∧
    batchStep [demoBatchStudent] initialBatchState (BatchEvent.capture true) =
      { currentStudentIndex := 0, enrolledStudents := [], isOpen := false,
        completions := 1 } ∧
    (batchRun [demoBatchStudent] initialBatchState
      [BatchEvent.capture true]).completions ≤ 1 := by
  obtain ⟨h1, _, _, h4, h5⟩ := C8_amended_completion [demoBatchStudent]
  exact ⟨h1 initialBatchState,
    h4 initialBatchState demoBatchStudent rfl rfl (by decide),
    h5 [BatchEvent.capture true]⟩

end BatchEnroll
